import Mathlib

/-!
# Verification of the `cmd_runner` package (gonkey)

A shallow embedding of `cmd_runner.go` (build tag `!windows`):

* `CapturingPassThroughWriter` with its `Write` and `Bytes` methods, modelled
  as a pure state-passing function.  The destination writer's behaviour on a
  given call (the `(int, error)` pair it reports) is supplied as an oracle
  argument, and the bytes handed to the destination are tracked in
  `destReceived`.
* `CmdRun scriptPath timeout`, modelled as a deterministic function of an
  environment `Env` describing what the operating system does on this
  invocation (start failure, pipe-creation failures, the data each drain
  copies, the `Wait` result, which arm of the `select` wins, the
  `Getpgid`/`Kill` results, and the value the racy read of `errStdout`
  observes in the timeout path).  The function produces the Go return value
  (`Option GoErr`, `none` = `nil`), a linearised event trace mirroring the
  control flow, the final states of the two local capturing sinks, the path
  actually handed to `exec.Command`, and the effective timeout.

Go `error` values are modelled as `Option GoErr`; byte slices as `List Nat`.
-/

/-- A Go `error` value (only its message is relevant here). -/
structure GoErr where
  msg : String
deriving Repr, DecidableEq

/-- A byte sequence (a Go `[]byte`). -/
abbrev ByteSeq := List Nat

/-- `CapturingPassThroughWriter`: remembers data written to it and passes it
to the destination writer `w`.  `buf` is the private `bytes.Buffer`;
`destReceived` records every byte slice forwarded to the destination, in
order (concatenated). -/
structure CapturingPassThroughWriter where
  buf : ByteSeq
  destReceived : ByteSeq
deriving Repr, DecidableEq

/-- `NewCapturingPassThroughWriter`: fresh writer with empty buffer and a
destination that has received nothing yet. -/
def NewCapturingPassThroughWriter : CapturingPassThroughWriter :=
  { buf := [], destReceived := [] }

/-- The destination writer's report for one `Write` call: the byte count and
error it returns (`os.Stdout.Write`'s behaviour is outside the source, so it
is an oracle input). -/
abbrev DestResp := Nat × Option GoErr

/-- `func (w *CapturingPassThroughWriter) Write(d []byte) (int, error)`:
`w.buf.Write(d); return w.w.Write(d)` — append `d` to the private buffer
first, then forward `d` to the destination and return the destination's
reported count and error.  `resp` is what the destination's `Write` returns
for this call. -/
def CapturingPassThroughWriter.Write (w : CapturingPassThroughWriter)
    (d : ByteSeq) (resp : DestResp) :
    CapturingPassThroughWriter × Nat × Option GoErr :=
  ({ buf := w.buf ++ d, destReceived := w.destReceived ++ d }, resp.1, resp.2)

/-- `func (w *CapturingPassThroughWriter) Bytes() []byte`:
`return w.buf.Bytes()`. -/
def CapturingPassThroughWriter.Bytes (w : CapturingPassThroughWriter) :
    ByteSeq :=
  w.buf

/-- A finite sequence of `Write` calls: each element is the byte slice passed
to `Write` together with the destination's report for that call. -/
def writeSeq (w : CapturingPassThroughWriter)
    (calls : List (ByteSeq × DestResp)) : CapturingPassThroughWriter :=
  calls.foldl (fun acc c => (acc.Write c.1 c.2).1) w

/-- A drain (`io.Copy`) writing a list of chunks into a sink; the destination
(`os.Stdout` / `os.Stderr`) accepts each chunk in full, which is the
successful-forwarding case. -/
def writeAll (w : CapturingPassThroughWriter) (chunks : List ByteSeq) :
    CapturingPassThroughWriter :=
  chunks.foldl (fun acc d => (acc.Write d (d.length, none)).1) w

/-- `strings.TrimRight(s, "\n")`: remove all trailing characters belonging to
the cutset `"\n"`, i.e. all trailing newline characters, and nothing else. -/
def trimRightNewline (s : String) : String :=
  ⟨(s.data.reverse.dropWhile (fun c => c = '\n')).reverse⟩

/-- Events of one `CmdRun` invocation, in the order the main control flow
observes them (goroutine events are linearised at the point their completion
is observed by the main goroutine). -/
inductive Ev where
  /-- `cmd.SysProcAttr = &syscall.SysProcAttr{Setpgid: true}` -/
  | setpgidEv : Ev
  /-- `cmd.Start()` succeeded -/
  | startEv : Ev
  /-- `cmd.Start()` failed -/
  | startFailEv : Ev
  /-- the main goroutine's `io.Copy(stderr, stderrIn)` returned -/
  | stderrDrainDoneEv : Ev
  /-- the main goroutine reached the `select` (the deadline race point) -/
  | selectEv : Ev
  /-- the `time.After` deadline timer fired -/
  | timerEv : Ev
  /-- `syscall.Getpgid(pid)` was called -/
  | getpgidEv : Int → Ev
  /-- `syscall.Kill(target, sig)` was called -/
  | killEv : Int → Int → Ev
  /-- the goroutine's `io.Copy(stdout, stdoutIn)` finished -/
  | stdoutDrainDoneEv : Ev
  /-- the goroutine's `cmd.Wait()` returned -/
  | waitDoneEv : Ev
  /-- the main goroutine received from the `done` channel -/
  | doneRecvEv : Ev
  /-- `CmdRun` returned -/
  | returnEv : Ev
deriving Repr, DecidableEq

deriving instance DecidableEq for Except

/-- Environment: what the operating system and the child process do during
one `CmdRun` invocation. -/
structure Env where
  /-- error returned by `cmd.StdoutPipe()` (the code discards it) -/
  stdoutPipeErr : Option GoErr
  /-- error returned by `cmd.StderrPipe()` (the code discards it) -/
  stderrPipeErr : Option GoErr
  /-- result of `cmd.Start()` (`none` = the process started) -/
  startErr : Option GoErr
  /-- `cmd.Process.Pid` after a successful start -/
  pid : Int
  /-- chunks the stdout drain copies from the stdout pipe, in order -/
  stdoutChunks : List ByteSeq
  /-- chunks the stderr drain copies from the stderr pipe, in order -/
  stderrChunks : List ByteSeq
  /-- error with which the goroutine's `io.Copy(stdout, stdoutIn)` ends -/
  copyStdoutErr : Option GoErr
  /-- error with which the main `io.Copy(stderr, stderrIn)` ends -/
  copyStderrErr : Option GoErr
  /-- result of `cmd.Wait()` (`none` = exit status 0) -/
  waitErr : Option GoErr
  /-- `true` iff the `time.After` arm of the `select` wins the race -/
  timerFirst : Bool
  /-- result of `syscall.Getpgid(cmd.Process.Pid)` -/
  getpgidRes : Except GoErr Int
  /-- result of `syscall.Kill(-pgid, 15)` -/
  killErr : Option GoErr
  /-- value the unsynchronised read of `errStdout` observes in the timeout
  path (the goroutine's assignment races with this read; `none` is the
  zero value if the write has not been observed) -/
  errStdoutSeen : Option GoErr
  /-- number of stdout chunks the goroutine had copied when the main
  goroutine returned in the timeout path -/
  stdoutCopiedAtReturn : Nat
deriving Repr, DecidableEq

/-- Everything observable about one invocation: the Go return value
(`result`, the ONLY value `CmdRun` returns to its caller), the linearised
event trace, the final states of the two local capturing sinks (local
variables of `CmdRun`, not returned), the argument handed to
`exec.Command`, and the effective timeout after defaulting. -/
structure ExecOut where
  result : Option GoErr
  trace : List Ev
  stdoutSink : CapturingPassThroughWriter
  stderrSink : CapturingPassThroughWriter
  usedPath : String
  effTimeout : Int
deriving Repr, DecidableEq

/-- `func CmdRun(scriptPath string, timeout int) error`, mirrored line by
line.  `timeout <= 0` is replaced by 3; the path is
`strings.TrimRight(scriptPath, "\n")`; `StdoutPipe`/`StderrPipe` errors are
discarded (`stdoutIn, _ := ...`); a failed `Start` returns its error at
once.  Otherwise a goroutine copies stdout and then sends `cmd.Wait()` on
`done`, the main goroutine copies stderr to completion, and only then blocks
on `select { case <-time.After(...); case err := <-done }`.  The timeout arm
calls `Getpgid` then `Kill(-pgid, 15)`, returning either error; the done arm
wraps a non-nil wait error as `process finished with error = ...`.  Both
arms that fall through return `failed to capture stdout or stderr` if an
observed copy error is non-nil, else `nil`. -/
def CmdRun (env : Env) (scriptPath : String) (timeout0 : Int) : ExecOut :=
  let timeout : Int := if timeout0 ≤ 0 then 3 else timeout0
  let path := trimRightNewline scriptPath
  let stdout0 := NewCapturingPassThroughWriter
  let stderr0 := NewCapturingPassThroughWriter
  match env.startErr with
  | some e =>
      { result := some e
        trace := [Ev.setpgidEv, Ev.startFailEv, Ev.returnEv]
        stdoutSink := stdout0, stderrSink := stderr0
        usedPath := path, effTimeout := timeout }
  | none =>
      let stderrSink := writeAll stderr0 env.stderrChunks
      let pre : List Ev :=
        [Ev.setpgidEv, Ev.startEv, Ev.stderrDrainDoneEv, Ev.selectEv]
      if env.timerFirst then
        -- timeout arm: the stdout drain / wait goroutine may still be
        -- running; its sink holds whatever was copied so far
        let stdoutSink :=
          writeAll stdout0 (env.stdoutChunks.take env.stdoutCopiedAtReturn)
        match env.getpgidRes with
        | Except.error e =>
            { result := some e
              trace := pre ++ [Ev.timerEv, Ev.getpgidEv env.pid, Ev.returnEv]
              stdoutSink := stdoutSink, stderrSink := stderrSink
              usedPath := path, effTimeout := timeout }
        | Except.ok pgid =>
            match env.killErr with
            | some e =>
                { result := some e
                  trace := pre ++ [Ev.timerEv, Ev.getpgidEv env.pid,
                    Ev.killEv (-pgid) 15, Ev.returnEv]
                  stdoutSink := stdoutSink, stderrSink := stderrSink
                  usedPath := path, effTimeout := timeout }
            | none =>
                { result :=
                    if env.errStdoutSeen.isSome ∨ env.copyStderrErr.isSome
                    then some ⟨"failed to capture stdout or stderr"⟩
                    else none
                  trace := pre ++ [Ev.timerEv, Ev.getpgidEv env.pid,
                    Ev.killEv (-pgid) 15, Ev.returnEv]
                  stdoutSink := stdoutSink, stderrSink := stderrSink
                  usedPath := path, effTimeout := timeout }
      else
        -- done arm: receiving from `done` means the goroutine finished its
        -- stdout copy and its `cmd.Wait()` (in that order) beforehand
        let stdoutSink := writeAll stdout0 env.stdoutChunks
        let preDone := pre ++
          [Ev.stdoutDrainDoneEv, Ev.waitDoneEv, Ev.doneRecvEv]
        match env.waitErr with
        | some e =>
            { result := some ⟨"process finished with error = " ++ e.msg⟩
              trace := preDone ++ [Ev.returnEv]
              stdoutSink := stdoutSink, stderrSink := stderrSink
              usedPath := path, effTimeout := timeout }
        | none =>
            { result :=
                if env.copyStdoutErr.isSome ∨ env.copyStderrErr.isSome
                then some ⟨"failed to capture stdout or stderr"⟩
                else none
              trace := preDone ++ [Ev.returnEv]
              stdoutSink := stdoutSink, stderrSink := stderrSink
              usedPath := path, effTimeout := timeout }

/-- `a` occurs strictly before some occurrence of `b` in the list. -/
def precedes (a b : Ev) : List Ev → Bool
  | [] => false
  | x :: xs => if x = a then xs.contains b else precedes a b xs

/-! ## Concrete environments used in witnesses and counterexamples -/

/-- A benign run: process starts, writes two stdout bytes, exits 0 before
the deadline; no copy errors. -/
def envOK : Env :=
  { stdoutPipeErr := none, stderrPipeErr := none, startErr := none
    pid := 100, stdoutChunks := [[104, 105]], stderrChunks := []
    copyStdoutErr := none, copyStderrErr := none, waitErr := none
    timerFirst := false, getpgidRes := Except.ok 100, killErr := none
    errStdoutSeen := none, stdoutCopiedAtReturn := 0 }

/-- Same world, but the deadline fires first; `Getpgid` and `Kill` both
succeed and no copy error is observed. -/
def envTimeout : Env := { envOK with timerFirst := true }

/-! ## Helper lemmas about the sinks -/

/-- A sequence of `Write` calls appends, in call order, every slice to the
private buffer and forwards the same slices to the destination. -/
theorem writeSeq_spec (calls : List (ByteSeq × DestResp))
    (w : CapturingPassThroughWriter) :
    (writeSeq w calls).buf = w.buf ++ (calls.map Prod.fst).flatten ∧
    (writeSeq w calls).destReceived
      = w.destReceived ++ (calls.map Prod.fst).flatten := by
  induction calls generalizing w with
  | nil => simp [writeSeq]
  | cons c cs ih =>
      have h := ih ⟨w.buf ++ c.1, w.destReceived ++ c.1⟩
      constructor
      · calc (writeSeq w (c :: cs)).buf
            = (writeSeq ⟨w.buf ++ c.1, w.destReceived ++ c.1⟩ cs).buf := rfl
          _ = w.buf ++ ((c :: cs).map Prod.fst).flatten := by
              rw [h.1]; simp
      · calc (writeSeq w (c :: cs)).destReceived
            = (writeSeq ⟨w.buf ++ c.1, w.destReceived ++ c.1⟩ cs).destReceived
              := rfl
          _ = w.destReceived ++ ((c :: cs).map Prod.fst).flatten := by
              rw [h.2]; simp

/-- A drain writing a list of chunks appends their concatenation to both the
buffer and the destination. -/
theorem writeAll_spec (chunks : List ByteSeq)
    (w : CapturingPassThroughWriter) :
    (writeAll w chunks).buf = w.buf ++ chunks.flatten ∧
    (writeAll w chunks).destReceived = w.destReceived ++ chunks.flatten := by
  induction chunks generalizing w with
  | nil => simp [writeAll]
  | cons c cs ih =>
      have h := ih ⟨w.buf ++ c, w.destReceived ++ c⟩
      constructor
      · calc (writeAll w (c :: cs)).buf
            = (writeAll ⟨w.buf ++ c, w.destReceived ++ c⟩ cs).buf := rfl
          _ = w.buf ++ (c :: cs).flatten := by rw [h.1]; simp
      · calc (writeAll w (c :: cs)).destReceived
            = (writeAll ⟨w.buf ++ c, w.destReceived ++ c⟩ cs).destReceived
              := rfl
          _ = w.destReceived ++ (c :: cs).flatten := by rw [h.2]; simp

/-! ## Claims -/

/-- C2: for every finite sequence of `Write` calls on a fresh
`CapturingPassThroughWriter`, `Bytes()` returns exactly the concatenation of
the byte slices passed to `Write`, in call order, with no byte dropped,
reordered, or duplicated, and the destination writer receives exactly the
same byte sequence in the same order. -/
theorem C2_capture_fidelity (calls : List (ByteSeq × DestResp)) :
    (writeSeq NewCapturingPassThroughWriter calls).Bytes
      = (calls.map Prod.fst).flatten ∧
    (writeSeq NewCapturingPassThroughWriter calls).destReceived
      = (calls.map Prod.fst).flatten := by
  have h := writeSeq_spec calls NewCapturingPassThroughWriter
  exact ⟨by rw [CapturingPassThroughWriter.Bytes, h.1]; rfl,
         by rw [h.2]; rfl⟩

/-- C7: `Write(d)` appends `d` to the private buffer and forwards `d` to the
destination, returns the destination's reported byte count and forwarding
error unchanged, and even when the destination reports an error `d` is fully
retained in the private buffer. -/
theorem C7_write_retention (w : CapturingPassThroughWriter) (d : ByteSeq)
    (resp : DestResp) :
    (w.Write d resp).1.buf = w.buf ++ d ∧
    (w.Write d resp).1.destReceived = w.destReceived ++ d ∧
    (w.Write d resp).2.1 = resp.1 ∧
    (w.Write d resp).2.2 = resp.2 := by
  exact ⟨rfl, rfl, rfl, rfl⟩

/-- C5: for every environment and script path, a non-positive timeout
behaves identically to timeout 3 (the whole observable outcome is equal). -/
theorem C5_default_timeout (env : Env) (s : String) (t : Int) (h : t ≤ 0) :
    CmdRun env s t = CmdRun env s 3 := by
  unfold CmdRun
  norm_num [h]

/-- C5 witness: timeout -1 behaves identically to timeout 3. -/
theorem C5_default_timeout_witness :
    (-1 : Int) ≤ 0 ∧ CmdRun envOK ("x.sh") (-1) = CmdRun envOK ("x.sh") 3 :=
  ⟨by norm_num, C5_default_timeout envOK ("x.sh") (-1) (by norm_num)⟩

/-- C4: when `cmd.Start()` fails, `CmdRun` returns that launch error at
once: the returned error is the start error, and the deadline race is never
entered (no `select`, no timer event in the trace). -/
theorem C4_launch_error_immediate (env : Env) (s : String) (t : Int)
    (e : GoErr) (h : env.startErr = some e) :
    (CmdRun env s t).result = some e ∧
    Ev.selectEv ∉ (CmdRun env s t).trace ∧
    Ev.timerEv ∉ (CmdRun env s t).trace := by
  unfold CmdRun
  rw [h]
  refine ⟨rfl, ?_, ?_⟩ <;> simp

/-- C4 witness: a concrete failed launch returns the start error without a
timer or race event. -/
theorem C4_launch_error_immediate_witness :
    ({ envOK with startErr := some ⟨"no such file"⟩ } : Env).startErr
      = some ⟨"no such file"⟩ ∧
    ((CmdRun { envOK with startErr := some ⟨"no such file"⟩ } ("bad.sh") 3).result
      = some ⟨"no such file"⟩ ∧
     Ev.selectEv ∉ (CmdRun { envOK with startErr := some ⟨"no such file"⟩ } ("bad.sh") 3).trace ∧
     Ev.timerEv ∉ (CmdRun { envOK with startErr := some ⟨"no such file"⟩ } ("bad.sh") 3).trace) :=
  ⟨rfl, C4_launch_error_immediate _ ("bad.sh") 3 ⟨"no such file"⟩ rfl⟩

/-- The path handed to `exec.Command` is always
`strings.TrimRight(scriptPath, "\n")`, in every branch of `CmdRun`. -/
theorem CmdRun_usedPath (env : Env) (s : String) (t : Int) :
    (CmdRun env s t).usedPath = trimRightNewline s := by
  obtain ⟨pe1, pe2, se, pid, sc, ec, cse, cee, we, tf, gp, ke, eso, scar⟩ := env
  cases se <;> cases tf <;> cases gp <;> cases ke <;> cases we <;> rfl

/-- Appending one trailing newline to the script path does not change the
path handed to `exec.Command`. -/
theorem trimRightNewline_append_newline (s : String) :
    trimRightNewline (s ++ ("\n")) = trimRightNewline s := by
  simp [trimRightNewline, String.data_append, List.dropWhile]

/-- C6 counterexample: leading and trailing spaces are NOT stripped — a path
with a leading and a trailing space is handed to `exec.Command` unchanged,
refuting the claim that leading/trailing whitespace is stripped. -/
theorem C6_counterexample :
    (CmdRun envOK (" /bin/ls ") 3).usedPath = (" /bin/ls ") ∧
    (" /bin/ls ") ≠ ("/bin/ls") :=
  ⟨rfl, by decide⟩

/-- C6 (amended): only trailing newline characters are stripped from the
script path before it is used to launch the process (a trailing newline is
tolerated); leading whitespace and trailing non-newline whitespace are
passed through unchanged. -/
theorem C6_amended_trailing_newline_only (env : Env) (s : String) (t : Int) :
    (CmdRun env s t).usedPath = trimRightNewline s ∧
    (CmdRun env (s ++ ("\n")) t).usedPath = (CmdRun env s t).usedPath := by
  refine ⟨CmdRun_usedPath env s t, ?_⟩
  rw [CmdRun_usedPath, CmdRun_usedPath, trimRightNewline_append_newline]

/-- C3 counterexample: the deadline race is NOT entered without first
waiting for a drain — in a concrete timed-out run the main goroutine's
stderr drain (`io.Copy(stderr, stderrIn)`) completes strictly before the
`select` race point is reached, because that copy is executed synchronously
in the main goroutine before the `select` statement. -/
theorem C3_counterexample :
    precedes Ev.stderrDrainDoneEv Ev.selectEv
      (CmdRun envTimeout ("x.sh") 1).trace = true := rfl

/-- C3 (amended): the main logic first runs the stderr drain to completion
synchronously and only then enters the deadline race; the stdout drain and
the exit wait run concurrently in a separate goroutine.  In the timeout path
it returns without receiving from the done channel (it does not wait for the
stdout-drain/exit-wait goroutine); in the normal-completion path the stdout
drain, the exit wait and the stderr drain have all finished before return. -/
theorem C3_amended_drain_ordering (env : Env) (s : String) (t : Int)
    (h : env.startErr = none) :
    precedes Ev.stderrDrainDoneEv Ev.selectEv (CmdRun env s t).trace = true ∧
    (env.timerFirst = true → Ev.doneRecvEv ∉ (CmdRun env s t).trace) ∧
    (env.timerFirst = false →
      precedes Ev.stdoutDrainDoneEv Ev.returnEv (CmdRun env s t).trace
        = true ∧
      precedes Ev.waitDoneEv Ev.returnEv (CmdRun env s t).trace = true ∧
      precedes Ev.stderrDrainDoneEv Ev.returnEv (CmdRun env s t).trace
        = true) := by
  obtain ⟨pe1, pe2, se, pid, sc, ec, cse, cee, we, tf, gp, ke, eso, scar⟩ := env
  cases se with
  | some e => exact absurd h (by simp)
  | none =>
      cases tf with
      | true =>
          cases gp <;> cases ke <;> cases we <;>
            exact ⟨rfl, fun _ => by simp [CmdRun], fun hh => by simp at hh⟩
      | false =>
          cases gp <;> cases ke <;> cases we <;>
            exact ⟨rfl, fun hh => by simp at hh, fun _ => ⟨rfl, rfl, rfl⟩⟩

/-- C3 witness: in a concrete timed-out run the ordering facts hold. -/
theorem C3_amended_drain_ordering_witness :
    envTimeout.startErr = none ∧
    precedes Ev.stderrDrainDoneEv Ev.selectEv
      (CmdRun envTimeout ("x.sh") 1).trace = true ∧
    (envTimeout.timerFirst = true →
      Ev.doneRecvEv ∉ (CmdRun envTimeout ("x.sh") 1).trace) :=
  ⟨rfl, (C3_amended_drain_ordering envTimeout ("x.sh") 1 rfl).1,
    (C3_amended_drain_ordering envTimeout ("x.sh") 1 rfl).2.1⟩

/-- C1 counterexample: a timed-out run in which the group kill succeeds and
no capture error is observed returns `nil` — exactly the same return value
as a run that completed normally with success.  There is no distinct
TimedOut tag in the value `CmdRun` returns, refuting the claim that the
TimedOut outcome is distinct from Completed(Success). -/
theorem C1_counterexample :
    (CmdRun envTimeout ("x.sh") 1).result = none ∧
    (CmdRun envOK ("x.sh") 1).result = none :=
  ⟨rfl, rfl⟩

/-- C1 (amended): when the deadline fires, a `Getpgid` or `Kill` failure is
returned to the caller as that delivery error; when the kill signal is
delivered, `CmdRun` returns the capture-failure error
(`failed to capture stdout or stderr`) if a capture error is observed, and
otherwise returns `nil` — the very same return value a successful normal
completion produces, so the timed-out outcome is not distinguishable from
Completed(Success) in the returned value. -/
theorem C1_amended_timeout_result (env : Env) (s : String) (t : Int)
    (h : env.startErr = none) (ht : env.timerFirst = true) :
    (∀ e, env.getpgidRes = Except.error e →
      (CmdRun env s t).result = some e) ∧
    (∀ pgid e, env.getpgidRes = Except.ok pgid → env.killErr = some e →
      (CmdRun env s t).result = some e) ∧
    (∀ pgid, env.getpgidRes = Except.ok pgid → env.killErr = none →
      (env.errStdoutSeen.isSome ∨ env.copyStderrErr.isSome) →
      (CmdRun env s t).result
        = some ⟨"failed to capture stdout or stderr"⟩) ∧
    (∀ pgid, env.getpgidRes = Except.ok pgid → env.killErr = none →
      env.errStdoutSeen = none → env.copyStderrErr = none →
      (CmdRun env s t).result = none ∧
      (CmdRun { env with
                timerFirst := false
                waitErr := none
                copyStdoutErr := none
                copyStderrErr := none } s t).result
        = none) := by
  obtain ⟨pe1, pe2, se, pid, sc, ec, cse, cee, we, tf, gp, ke, eso, scar⟩ := env
  cases se with
  | some e => exact absurd h (by simp)
  | none =>
      cases tf with
      | false => exact absurd ht (by simp)
      | true =>
          refine ⟨?_, ?_, ?_, ?_⟩
          · intro e hg
            simp only at hg
            subst hg
            cases ke <;> cases we <;> rfl
          · intro pgid e hg hk
            simp only at hg hk
            subst hg
            subst hk
            cases we <;> rfl
          · intro pgid hg hk hcap
            simp only at hg hk hcap
            subst hg
            subst hk
            cases we <;> simp [CmdRun, hcap]
          · intro pgid hg hk hso hce
            simp only at hg hk hso hce
            subst hg
            subst hk
            subst hso
            subst hce
            cases we <;> exact ⟨rfl, rfl⟩

/-- C1 witness: concretely, a timed-out run with a delivered kill and no
observed capture error returns `nil` (equal to the normal-success return
value), and the same run with an observed stdout capture error returns the
capture-failure error. -/
theorem C1_amended_timeout_result_witness :
    envTimeout.startErr = none ∧ envTimeout.timerFirst = true ∧
    ((CmdRun envTimeout ("x.sh") 1).result = none ∧
     (CmdRun { envTimeout with
               timerFirst := false
               waitErr := none
               copyStdoutErr := none
               copyStderrErr := none } ("x.sh") 1).result
       = none) ∧
    (CmdRun { envTimeout with errStdoutSeen := some ⟨"read error"⟩ }
        ("x.sh") 1).result
      = some ⟨"failed to capture stdout or stderr"⟩ :=
  ⟨rfl, rfl,
    (C1_amended_timeout_result envTimeout ("x.sh") 1 rfl rfl).2.2.2 100 rfl
      rfl rfl rfl,
    (C1_amended_timeout_result
        { envTimeout with errStdoutSeen := some ⟨"read error"⟩ } ("x.sh") 1
        rfl rfl).2.2.1 100 rfl rfl (Or.inl rfl)⟩

/-- C8: in every timed-out run where `Getpgid` succeeds, the child was made
the leader of a new process group at launch (`Setpgid`), the supervisor
resolves the group id of the child's pid, and the termination signal 15 is
sent to the negated group id — the entire group, not merely the child. -/
theorem C8_group_kill (env : Env) (s : String) (t : Int) (pgid : Int)
    (h : env.startErr = none) (ht : env.timerFirst = true)
    (hg : env.getpgidRes = Except.ok pgid) :
    Ev.setpgidEv ∈ (CmdRun env s t).trace ∧
    Ev.getpgidEv env.pid ∈ (CmdRun env s t).trace ∧
    Ev.killEv (-pgid) 15 ∈ (CmdRun env s t).trace := by
  obtain ⟨pe1, pe2, se, pid, sc, ec, cse, cee, we, tf, gp, ke, eso, scar⟩ := env
  cases se with
  | some e => exact absurd h (by simp)
  | none =>
      cases tf with
      | false => exact absurd ht (by simp)
      | true =>
          simp only at hg
          subst hg
          cases ke <;> cases we <;> refine ⟨?_, ?_, ?_⟩ <;> simp [CmdRun]

/-- C8 witness: the concrete timed-out run resolves group id 100 and sends
signal 15 to -100. -/
theorem C8_group_kill_witness :
    envTimeout.startErr = none ∧ envTimeout.timerFirst = true ∧
    envTimeout.getpgidRes = Except.ok 100 ∧
    (Ev.setpgidEv ∈ (CmdRun envTimeout ("x.sh") 1).trace ∧
     Ev.getpgidEv envTimeout.pid ∈ (CmdRun envTimeout ("x.sh") 1).trace ∧
     Ev.killEv (-100) 15 ∈ (CmdRun envTimeout ("x.sh") 1).trace) :=
  ⟨rfl, rfl, rfl, C8_group_kill envTimeout ("x.sh") 1 100 rfl rfl rfl⟩

/-- A run whose process exits with a failing status before the deadline,
having written two stdout bytes. -/
def envExecErrA : Env := { envOK with waitErr := some ⟨"exit status 1"⟩ }

/-- The same failing run except that the process wrote no stdout bytes. -/
def envExecErrB : Env := { envExecErrA with stdoutChunks := [] }

/-- C9 counterexample: the captured output is NOT returned to the caller —
two execution-error runs that differ only in the bytes the process wrote
produce exactly the same return value (the only value `CmdRun` returns),
even though their captured stdout buffers differ. -/
theorem C9_counterexample :
    (CmdRun envExecErrA ("x.sh") 3).result
      = (CmdRun envExecErrB ("x.sh") 3).result ∧
    (CmdRun envExecErrA ("x.sh") 3).stdoutSink.Bytes
      ≠ (CmdRun envExecErrB ("x.sh") 3).stdoutSink.Bytes :=
  ⟨rfl, by decide⟩

/-- C9 (amended): when the process exits with a non-nil status before the
deadline, `CmdRun` returns an error wrapping the underlying status
(`process finished with error = ...`); the captured stdout and stderr bytes
are accumulated in local sinks (and forwarded live to the supervisor's own
streams) but are not part of the value returned to the caller — changing the
drained bytes leaves the return value unchanged. -/
theorem C9_amended_exec_error (env : Env) (s : String) (t : Int) (e : GoErr)
    (h : env.startErr = none) (ht : env.timerFirst = false)
    (hw : env.waitErr = some e) :
    (CmdRun env s t).result
      = some ⟨("process finished with error = ") ++ e.msg⟩ ∧
    (∀ c c', (CmdRun { env with stdoutChunks := c, stderrChunks := c' } s
        t).result = (CmdRun env s t).result) ∧
    (CmdRun env s t).stdoutSink.Bytes = env.stdoutChunks.flatten ∧
    (CmdRun env s t).stderrSink.Bytes = env.stderrChunks.flatten := by
  obtain ⟨pe1, pe2, se, pid, sc, ec, cse, cee, we, tf, gp, ke, eso, scar⟩ := env
  cases se with
  | some e0 => exact absurd h (by simp)
  | none =>
      cases tf with
      | true => exact absurd ht (by simp)
      | false =>
          simp only at hw
          subst hw
          refine ⟨rfl, fun c c' => rfl, ?_, ?_⟩
          · have hs := writeAll_spec sc NewCapturingPassThroughWriter
            calc (CmdRun ⟨pe1, pe2, none, pid, sc, ec, cse, cee, some e,
                  false, gp, ke, eso, scar⟩ s t).stdoutSink.Bytes
                = (writeAll NewCapturingPassThroughWriter sc).buf := rfl
              _ = sc.flatten := by rw [hs.1]; rfl
          · have hs := writeAll_spec ec NewCapturingPassThroughWriter
            calc (CmdRun ⟨pe1, pe2, none, pid, sc, ec, cse, cee, some e,
                  false, gp, ke, eso, scar⟩ s t).stderrSink.Bytes
                = (writeAll NewCapturingPassThroughWriter ec).buf := rfl
              _ = ec.flatten := by rw [hs.1]; rfl

/-- C9 witness: the concrete failing run returns the wrapped status and its
sinks hold exactly the drained bytes. -/
theorem C9_amended_exec_error_witness :
    envExecErrA.startErr = none ∧ envExecErrA.timerFirst = false ∧
    envExecErrA.waitErr = some ⟨"exit status 1"⟩ ∧
    ((CmdRun envExecErrA ("x.sh") 3).result
      = some ⟨("process finished with error = ") ++ ("exit status 1")⟩ ∧
     (CmdRun envExecErrA ("x.sh") 3).stdoutSink.Bytes
      = envExecErrA.stdoutChunks.flatten) :=
  ⟨rfl, rfl, rfl,
    (C9_amended_exec_error envExecErrA ("x.sh") 3 ⟨"exit status 1"⟩ rfl rfl
      rfl).1,
    (C9_amended_exec_error envExecErrA ("x.sh") 3 ⟨"exit status 1"⟩ rfl rfl
      rfl).2.2.1⟩

/-- C10: errors from creating the stdout and stderr pipe endpoints are
silently discarded — the whole observable outcome is unchanged whatever
those errors are, the launch still proceeds (the start event occurs), and
the failure is never reported to the caller as a launch error. -/
theorem C10_pipe_errors_discarded (env : Env) (s : String) (t : Int)
    (q1 q2 : Option GoErr) (h : env.startErr = none) :
    CmdRun { env with stdoutPipeErr := q1, stderrPipeErr := q2 } s t
      = CmdRun env s t ∧
    Ev.startEv ∈
      (CmdRun { env with stdoutPipeErr := q1, stderrPipeErr := q2 } s
        t).trace := by
  obtain ⟨pe1, pe2, se, pid, sc, ec, cse, cee, we, tf, gp, ke, eso, scar⟩ := env
  cases se with
  | some e0 => exact absurd h (by simp)
  | none =>
      cases tf <;> cases gp <;> cases ke <;> cases we <;>
        exact ⟨rfl, by simp [CmdRun]⟩

/-- C10 witness: a concrete run with both pipe creations failing behaves
exactly like the run where they succeed, and still starts the process. -/
theorem C10_pipe_errors_discarded_witness :
    envOK.startErr = none ∧
    (CmdRun { envOK with
              stdoutPipeErr := some ⟨"pipe failed"⟩
              stderrPipeErr := some ⟨"pipe failed"⟩ } ("x.sh") 3
      = CmdRun envOK ("x.sh") 3 ∧
     Ev.startEv ∈
      (CmdRun { envOK with
                stdoutPipeErr := some ⟨"pipe failed"⟩
                stderrPipeErr := some ⟨"pipe failed"⟩ } ("x.sh") 3).trace) :=
  ⟨rfl, C10_pipe_errors_discarded envOK ("x.sh") 3 (some ⟨"pipe failed"⟩)
    (some ⟨"pipe failed"⟩) rfl⟩
